import Mathlib

/-!
Verification of the adaptive request/retry/backoff engine of the Mielto SDK
(`src/legacy/compress.ts`).  The TypeScript module is shallowly embedded:
pure helpers become Lean functions on `Nat`/`ℚ`, the recursive
`executeWithRetry` orchestrator becomes a function over an explicit transport
script (one `TransportOutcome` per physical attempt) and a jitter stream (one
rational draw per attempt, standing for `Math.random()`), and thrown
`Error(msg)` values become a `CompressFailure` tag together with the exact
message string produced by `CompressFailure.errorMessage`.
-/

namespace MieltoCompress

/-- One message record of a message-array payload (`MessageObject`).  The TS
interface declares `message: string`, but the code reads it defensively as
`msg.message?.length || 0`, and reads an optional `user_id` attribute through
the `[key: string]: any` index signature; both fields are therefore optional
here.  Fields the engine never reads (`role`, `created_at`, further index
entries) are omitted. -/
structure MessageObject where
  message : Option String := none
  user_id : Option String := none
deriving DecidableEq

/-- `Content = string | MessageObject[]`. -/
inductive Content where
  | str (s : String)
  | msgs (l : List MessageObject)
deriving DecidableEq

/-- Outbound request body (`CompressRequest`). -/
structure CompressRequest where
  content : Content
  include_metadata : Option Bool := none
  webhook_url : Option String := none
  user_id : Option String := none
deriving DecidableEq

/-- Parsed response body (`CompressResponse`).  `compression_time` is a server
float that the control logic never inspects; it is omitted. -/
structure CompressResponse where
  status : String
  content : Option String := none
  original_length : Option Nat := none
  compressed_length : Option Nat := none
  message : Option String := none
  user_id : Option String := none
deriving DecidableEq

/-- The response attached to an axios error.  The body is modelled by its
detail text: the source reads `typeof data === 'string' ? data :
(data as ErrorResponse).detail`, which in both cases yields one string. -/
structure ErrResponse where
  status : Nat
  detail : String
deriving DecidableEq

/-- An axios transport error: `response` is absent when no HTTP response was
received (timeout, connection failure), `code` is the transport failure code
(`'ECONNABORTED'` for a client-side timeout). -/
structure AxiosErr where
  response : Option ErrResponse := none
  code : Option String := none
  message : String := ""
deriving DecidableEq

/-- Retry configuration (`RetryConfig`).  Delay parameters are rationals so
that jitter arithmetic on `Math.random()` draws stays exact. -/
structure RetryConfig where
  maxRetries : Nat
  initialDelay : ℚ
  maxDelay : ℚ
  factor : ℚ
deriving DecidableEq

/-- JavaScript truthiness of an optional string: `undefined` and `""` are
falsy, every other string is truthy. -/
def optStrTruthy : Option String → Bool
  | none => false
  | some s => !s.isEmpty

/-- `haystack.includes(needle)` on JS strings, as substring occurrence over
the character lists. -/
def stringIncludes (haystack needle : String) : Bool :=
  decide (needle.data <:+: haystack.data)

/-- JS `toLowerCase()`, modelled as per-character simple lowering over the
character list. -/
def strToLower (s : String) : String :=
  String.mk (s.data.map Char.toLower)

/-- `getContentLength`: string length, or the sum of `msg.message?.length || 0`
over a message array. -/
def getContentLength : Content → Nat
  | .str s => s.length
  | .msgs l => l.foldl (fun acc m => acc + (m.message.map String.length).getD 0) 0

/-- `getMessageCount`: 1 for a string, the array length otherwise. -/
def getMessageCount : Content → Nat
  | .str _ => 1
  | .msgs l => l.length

/-- `extractUserIdFromContent`: `content.find(msg => msg.user_id)?.user_id` —
the `user_id` of the first message whose `user_id` is truthy. -/
def extractUserIdFromContent : Content → Option String
  | .str _ => none
  | .msgs l => (l.find? (fun m => optStrTruthy m.user_id)).bind (fun m => m.user_id)

/-- `calculateTimeout`: banded step function of the message count plus a
length-proportional term (`Math.ceil(totalLength / 10000)` extra seconds),
clamped to the 120000 ms ceiling. -/
def calculateTimeout (content : Content) : Nat :=
  let messageCount := getMessageCount content
  let totalLength := getContentLength content
  let timeout : Nat :=
    if messageCount ≤ 10 then 10000 + messageCount * 300
    else if messageCount ≤ 30 then 10000 + 10 * 300 + (messageCount - 10) * 600
    else if messageCount ≤ 50 then 10000 + 10 * 300 + 20 * 600 + (messageCount - 30) * 1000
    else if messageCount ≤ 100 then
      10000 + 10 * 300 + 20 * 600 + 20 * 1000 + (messageCount - 50) * 300
    else 120000
  let lengthFactor := (totalLength + 9999) / 10000
  min (timeout + lengthFactor * 1000) 120000

/-- `calculateRetryDelay`: exponential backoff
`min(baseDelay * factor^(attempt-1), maxDelay)` plus a jitter of
`rand * 0.3` of that value, floored to an integer; `rand` stands for the
`Math.random()` draw. -/
def calculateRetryDelay (attempt : Nat) (baseDelay maxDelay factor : ℚ)
    (rand : ℚ) : ℤ :=
  let delay := min (baseDelay * factor ^ (attempt - 1)) maxDelay
  let jitter := rand * (3 / 10) * delay
  ⌊delay + jitter⌋

/-- `calculateProcessingDelay`: `Math.ceil(contentLength / 15000)` minutes,
in milliseconds.  `(n + 14999) / 15000` is ceiling division on `Nat`. -/
def calculateProcessingDelay (contentLength : Nat) : Nat :=
  ((contentLength + 14999) / 15000) * 60000

/-- `isRetryableError`: an error with no response is retryable; otherwise only
status 503 or 429. -/
def isRetryableError (e : AxiosErr) : Bool :=
  match e.response with
  | none => true
  | some r => r.status == 503 || r.status == 429

/-- The distinguishable `Error` values thrown by the client, tagged; the exact
thrown message of each is `CompressFailure.errorMessage`. -/
inductive CompressFailure where
  | tooLong (len : Nat)
  | stillProcessingExhausted (attempts : Nat)
  | badRequest (detail : String)
  | serverError (detail : String)
  | serviceUnavailable
  | requestTimeout (timeoutSec : Nat)
  | requestFailed (msg : String)
deriving DecidableEq

/-- The exact message string of each thrown `Error`.  (For `requestTimeout`
the source renders `timeout / 1000` with JS number division; the timeouts the
client computes are whole milliseconds, modelled with `Nat` division in the
`timeoutSec` argument.) -/
def CompressFailure.errorMessage : CompressFailure → String
  | .tooLong len =>
      "Content is too long (" ++ toString len ++
        " characters). Maximum allowed is 800,000 characters."
  | .stillProcessingExhausted attempts =>
      "Content is still being processed after " ++ toString attempts ++
        " attempts. Please use webhook_url for large content or try again later."
  | .badRequest detail => "Bad Request: " ++ detail
  | .serverError detail => "Server Error: " ++ detail
  | .serviceUnavailable =>
      "Service Unavailable: The compression service is temporarily unavailable. " ++
        "This usually happens with large content. " ++
        "Please try again later or use webhook_url for async processing."
  | .requestTimeout timeoutSec =>
      "Request timeout after " ++ toString timeoutSec ++
        "s. Consider using webhook_url for large content."
  | .requestFailed msg => "Request failed: " ++ msg

/-- Terminal outcome of one logical request: the returned body, or the thrown
failure. -/
inductive CompressOutcome where
  | success (resp : CompressResponse)
  | failure (f : CompressFailure)
deriving DecidableEq

/-- What the transport produces for one physical attempt. -/
inductive TransportOutcome where
  | ok (resp : CompressResponse)
  | err (e : AxiosErr)
deriving DecidableEq

/-- Trace of one run: terminal outcome, the request body of every physical
send in order, and every wait (`setTimeout` delay in ms) in order. -/
structure RunResult where
  result : CompressOutcome
  sentRequests : List CompressRequest
  waits : List ℤ
deriving DecidableEq

/-- The terminal branch of `executeWithRetry`'s catch block: `response`
statuses 400 / 500 / 503 first, then the `'ECONNABORTED'` timeout code, then
the generic failure. -/
def classifyTerminalError (e : AxiosErr) (timeout : Nat) : CompressFailure :=
  let fallback :=
    if e.code == some "ECONNABORTED" then CompressFailure.requestTimeout (timeout / 1000)
    else CompressFailure.requestFailed e.message
  match e.response with
  | some r =>
      if r.status == 400 then CompressFailure.badRequest r.detail
      else if r.status == 500 then CompressFailure.serverError r.detail
      else if r.status == 503 then CompressFailure.serviceUnavailable
      else fallback
  | none => fallback

/-- The `"being processed"` classification: wire status `"success"`, a truthy
`message`, and a case-insensitive substring match. -/
def isStillProcessing (resp : CompressResponse) : Bool :=
  resp.status == "success" && optStrTruthy resp.message &&
    stringIncludes (strToLower (resp.message.getD "")) "being processed"

/-- `executeWithRetry(request, timeout, attempt)`.  `script n` is the
transport's outcome for the physical attempt numbered `n` (1-based, as in the
source), `jitters n` the `Math.random()` draw used if attempt `n` schedules a
backoff wait.  A still-processing success body is re-sent after the
size-proportional processing delay while `attempt < maxRetries`; a retryable
error is re-sent after the exponential backoff delay while
`attempt < maxRetries`; everything else is terminal. -/
def executeWithRetry (cfg : RetryConfig) (request : CompressRequest)
    (timeout : Nat) (script : Nat → TransportOutcome) (jitters : Nat → ℚ)
    (attempt : Nat) : RunResult :=
  match script attempt with
  | .ok resp =>
      if isStillProcessing resp then
        if h : attempt < cfg.maxRetries then
          let contentLength := getContentLength request.content
          let delay := calculateProcessingDelay contentLength
          let rest := executeWithRetry cfg request timeout script jitters (attempt + 1)
          { result := rest.result
            sentRequests := request :: rest.sentRequests
            waits := (delay : ℤ) :: rest.waits }
        else
          { result := .failure (.stillProcessingExhausted cfg.maxRetries)
            sentRequests := [request]
            waits := [] }
      else
        { result := .success resp, sentRequests := [request], waits := [] }
  | .err e =>
      if isRetryableError e then
        if h : attempt < cfg.maxRetries then
          let delay := calculateRetryDelay attempt cfg.initialDelay cfg.maxDelay
            cfg.factor (jitters attempt)
          let rest := executeWithRetry cfg request timeout script jitters (attempt + 1)
          { result := rest.result
            sentRequests := request :: rest.sentRequests
            waits := delay :: rest.waits }
        else
          { result := .failure (classifyTerminalError e timeout)
            sentRequests := [request]
            waits := [] }
      else
        { result := .failure (classifyTerminalError e timeout)
          sentRequests := [request]
          waits := [] }
termination_by cfg.maxRetries - attempt
decreasing_by all_goals omega

/-- `compress(request)`: derive a `user_id` from the content when the
envelope's own `user_id` is falsy, reject content longer than 800,000
characters before any send, otherwise run `executeWithRetry` starting at
attempt 1 with the size-derived per-call timeout. -/
def compress (cfg : RetryConfig) (request : CompressRequest)
    (script : Nat → TransportOutcome) (jitters : Nat → ℚ) : RunResult :=
  let contentLength := getContentLength request.content
  let request1 :=
    if !optStrTruthy request.user_id then
      match extractUserIdFromContent request.content with
      | some uid => if !uid.isEmpty then { request with user_id := some uid } else request
      | none => request
    else request
  if contentLength > 800000 then
    { result := .failure (.tooLong contentLength), sentRequests := [], waits := [] }
  else
    let timeout := calculateTimeout request1.content
    executeWithRetry cfg request1 timeout script jitters 1

/-- The advisory warning emitted by `compress` before sending: more than 100
messages and no truthy `webhook_url`.  Purely observational. -/
def compressWarns (request : CompressRequest) : Bool :=
  getMessageCount request.content > 100 && !optStrTruthy request.webhook_url

/-- Recognizes the pre-send validation failure (content too long). -/
def isTooLongFailure : CompressOutcome → Bool
  | .failure (.tooLong _) => true
  | _ => false

/-- Fixture: a still-processing response body. -/
def stillProcessingResp : CompressResponse :=
  { status := "success", message := some "Your content is being processed" }

/-- Fixture: a plain success body. -/
def doneResp : CompressResponse :=
  { status := "success", content := some "compressed" }

/-- Fixture: a client-side timeout error — no response, code `ECONNABORTED`. -/
def timeoutErr : AxiosErr :=
  { response := none, code := some "ECONNABORTED",
    message := "timeout of 10000ms exceeded" }

/-- Fixture: a 503 overload error. -/
def overloadErr : AxiosErr :=
  { response := some { status := 503, detail := "overloaded" },
    message := "Request failed with status code 503" }

/-- Fixture: a 500 server error with a detail text. -/
def serverErr : AxiosErr :=
  { response := some { status := 500, detail := "boom" },
    message := "Request failed with status code 500" }

/-- Fixture: an asynchronous-delivery acknowledgment whose free-text message
happens to mention that the content is being processed. -/
def webhookAckResp : CompressResponse :=
  { status := "success",
    message := some
      "Accepted: your content is being processed and the result will be sent to your webhook" }

/-- Fixture: a small request without webhook or identity. -/
def sampleReq : CompressRequest := { content := .str "abc" }

/-- Fixture: a small request carrying an asynchronous delivery target. -/
def webhookReq : CompressRequest :=
  { content := .str "abc", webhook_url := some "https://example.com/hook" }

/-- Fixture: configuration with a retry budget of 2. -/
def cfg2 : RetryConfig :=
  { maxRetries := 2, initialDelay := 10000, maxDelay := 600000, factor := 2 }

/-- Fixture: configuration with the default retry budget of 10. -/
def cfg10 : RetryConfig :=
  { maxRetries := 10, initialDelay := 10000, maxDelay := 600000, factor := 2 }

/-- Transport script producing the same outcome on every attempt. -/
def constScript (o : TransportOutcome) : Nat → TransportOutcome := fun _ => o

/-- Transport script: a client-side timeout on attempt 1, then plain success. -/
def timeoutThenOk : Nat → TransportOutcome :=
  fun n => if n = 1 then .err timeoutErr else .ok doneResp

/-- Transport script: still-processing on attempt 1, then a 503 on every
later attempt. -/
def spThenOverload : Nat → TransportOutcome :=
  fun n => if n = 1 then .ok stillProcessingResp else .err overloadErr

/-- Transport script: the webhook acknowledgment on attempt 1, then plain
success. -/
def ackThenOk : Nat → TransportOutcome :=
  fun n => if n = 1 then .ok webhookAckResp else .ok doneResp

/-- A jitter stream that always draws 0. -/
def zeroJitter : Nat → ℚ := fun _ => 0

/-! ### Helper lemmas about the orchestrator -/

theorem stringIncludes_append_of_right (a b needle : String)
    (h : stringIncludes b needle = true) : stringIncludes (a ++ b) needle = true := by
  simp only [stringIncludes, decide_eq_true_eq] at h ⊢
  rw [String.data_append]
  exact h.trans (List.suffix_append a.data b.data).isInfix

theorem classifyTerminalError_ne_tooLong (e : AxiosErr) (timeout : Nat) :
    isTooLongFailure (.failure (classifyTerminalError e timeout)) = false := by
  unfold classifyTerminalError
  cases e.response <;> dsimp only <;>
    repeat' first
      | rfl
      | split

theorem executeWithRetry_sends_bound :
    ∀ (k : Nat) (cfg : RetryConfig) (request : CompressRequest) (timeout : Nat)
      (script : Nat → TransportOutcome) (jitters : Nat → ℚ) (attempt : Nat),
      cfg.maxRetries - attempt = k →
      (executeWithRetry cfg request timeout script jitters attempt).sentRequests.length ≤
        k + 1 := by
  intro k
  induction k with
  | zero =>
      intro cfg request timeout script jitters attempt hk
      rw [executeWithRetry]
      have hlt : ¬ attempt < cfg.maxRetries := by omega
      cases hsc : script attempt with
      | ok resp =>
          by_cases hsp : isStillProcessing resp = true
          · simp [hsp, hlt]
          · simp [hsp]
      | err e =>
          by_cases hre : isRetryableError e = true
          · simp [hre, hlt]
          · simp [hre]
  | succ k ih =>
      intro cfg request timeout script jitters attempt hk
      rw [executeWithRetry]
      have hlt : attempt < cfg.maxRetries := by omega
      have hrec := ih cfg request timeout script jitters (attempt + 1) (by omega)
      cases hsc : script attempt with
      | ok resp =>
          by_cases hsp : isStillProcessing resp = true
          · simp only [hsp, if_true, dif_pos hlt, List.length_cons]
            omega
          · simp [hsp]
      | err e =>
          by_cases hre : isRetryableError e = true
          · simp only [hre, if_true, dif_pos hlt, List.length_cons]
            omega
          · simp [hre]

theorem executeWithRetry_sends_replicate :
    ∀ (k : Nat) (cfg : RetryConfig) (request : CompressRequest) (timeout : Nat)
      (script : Nat → TransportOutcome) (jitters : Nat → ℚ) (attempt : Nat),
      cfg.maxRetries - attempt = k →
      ∃ n : Nat, (executeWithRetry cfg request timeout script jitters attempt).sentRequests =
        List.replicate (n + 1) request := by
  intro k
  induction k with
  | zero =>
      intro cfg request timeout script jitters attempt hk
      refine ⟨0, ?_⟩
      rw [executeWithRetry]
      have hlt : ¬ attempt < cfg.maxRetries := by omega
      cases hsc : script attempt with
      | ok resp =>
          by_cases hsp : isStillProcessing resp = true
          · simp [hsp, hlt]
          · simp [hsp]
      | err e =>
          by_cases hre : isRetryableError e = true
          · simp [hre, hlt]
          · simp [hre]
  | succ k ih =>
      intro cfg request timeout script jitters attempt hk
      obtain ⟨n, hn⟩ := ih cfg request timeout script jitters (attempt + 1) (by omega)
      rw [executeWithRetry]
      have hlt : attempt < cfg.maxRetries := by omega
      cases hsc : script attempt with
      | ok resp =>
          by_cases hsp : isStillProcessing resp = true
          · exact ⟨n + 1, by simp [hsp, hlt, hn, List.replicate_succ]⟩
          · exact ⟨0, by simp [hsp]⟩
      | err e =>
          by_cases hre : isRetryableError e = true
          · exact ⟨n + 1, by simp [hre, hlt, hn, List.replicate_succ]⟩
          · exact ⟨0, by simp [hre]⟩

theorem executeWithRetry_result_not_validation :
    ∀ (k : Nat) (cfg : RetryConfig) (request : CompressRequest) (timeout : Nat)
      (script : Nat → TransportOutcome) (jitters : Nat → ℚ) (attempt : Nat),
      cfg.maxRetries - attempt = k →
      isTooLongFailure
        (executeWithRetry cfg request timeout script jitters attempt).result = false := by
  intro k
  induction k with
  | zero =>
      intro cfg request timeout script jitters attempt hk
      rw [executeWithRetry]
      have hlt : ¬ attempt < cfg.maxRetries := by omega
      cases hsc : script attempt with
      | ok resp =>
          by_cases hsp : isStillProcessing resp = true
          · simp [hsp, hlt, isTooLongFailure]
          · simp [hsp, isTooLongFailure]
      | err e =>
          by_cases hre : isRetryableError e = true
          · simpa [hre, hlt] using classifyTerminalError_ne_tooLong e timeout
          · simpa [hre] using classifyTerminalError_ne_tooLong e timeout
  | succ k ih =>
      intro cfg request timeout script jitters attempt hk
      rw [executeWithRetry]
      have hlt : attempt < cfg.maxRetries := by omega
      have hrec := ih cfg request timeout script jitters (attempt + 1) (by omega)
      cases hsc : script attempt with
      | ok resp =>
          by_cases hsp : isStillProcessing resp = true
          · simpa [hsp, hlt] using hrec
          · simp [hsp, isTooLongFailure]
      | err e =>
          by_cases hre : isRetryableError e = true
          · simpa [hre, hlt] using hrec
          · simpa [hre] using classifyTerminalError_ne_tooLong e timeout

theorem executeWithRetry_constStillProcessing :
    ∀ (k : Nat) (cfg : RetryConfig) (request : CompressRequest) (timeout : Nat)
      (jitters : Nat → ℚ) (resp : CompressResponse),
      isStillProcessing resp = true →
      ∀ attempt, cfg.maxRetries - attempt = k →
      executeWithRetry cfg request timeout (constScript (.ok resp)) jitters attempt =
        { result := .failure (.stillProcessingExhausted cfg.maxRetries)
          sentRequests := List.replicate (k + 1) request
          waits := List.replicate k
            ((calculateProcessingDelay (getContentLength request.content) : ℤ)) } := by
  intro k
  induction k with
  | zero =>
      intro cfg request timeout jitters resp hsp attempt hk
      rw [executeWithRetry]
      have hlt : ¬ attempt < cfg.maxRetries := by omega
      simp [constScript, hsp, hlt]
  | succ k ih =>
      intro cfg request timeout jitters resp hsp attempt hk
      rw [executeWithRetry]
      have hlt : attempt < cfg.maxRetries := by omega
      have hrec := ih cfg request timeout jitters resp hsp (attempt + 1) (by omega)
      simp [constScript, hsp, hlt, hrec, List.replicate_succ]

theorem executeWithRetry_constRetryableErr :
    ∀ (k : Nat) (cfg : RetryConfig) (request : CompressRequest) (timeout : Nat)
      (jitters : Nat → ℚ) (e : AxiosErr),
      isRetryableError e = true →
      ∀ attempt, cfg.maxRetries - attempt = k →
      (executeWithRetry cfg request timeout (constScript (.err e)) jitters attempt).result =
        .failure (classifyTerminalError e timeout) ∧
      (executeWithRetry cfg request timeout
          (constScript (.err e)) jitters attempt).sentRequests.length = k + 1 := by
  intro k
  induction k with
  | zero =>
      intro cfg request timeout jitters e hre attempt hk
      rw [executeWithRetry]
      have hlt : ¬ attempt < cfg.maxRetries := by omega
      simp [constScript, hre, hlt]
  | succ k ih =>
      intro cfg request timeout jitters e hre attempt hk
      rw [executeWithRetry]
      have hlt : attempt < cfg.maxRetries := by omega
      have hrec := ih cfg request timeout jitters e hre (attempt + 1) (by omega)
      simp [constScript, hre, hlt, hrec.1, hrec.2]

/-! ### Claim theorems -/

/-- C4: for every attempt `n ≥ 1` and jitter draw `0 ≤ r < 1`, the backoff
delay is `⌊d + r·0.3·d⌋` with `d = min(base·factor^(n−1), cap)`; with
`base = 10000`, `cap = 600000`, `factor = 2` the attempt-1 result lies in
`[10000, 13000)` and the attempt-5 result never exceeds `cap · 1.3 = 780000`. -/
theorem calculateRetryDelay_spec (n : Nat) (base cap factor r : ℚ)
    (hn : 1 ≤ n) (hr0 : 0 ≤ r) (hr1 : r < 1) :
    calculateRetryDelay n base cap factor r =
      ⌊min (base * factor ^ (n - 1)) cap +
        r * (3 / 10) * min (base * factor ^ (n - 1)) cap⌋ ∧
    ((10000 : ℤ) ≤ calculateRetryDelay 1 10000 600000 2 r ∧
      calculateRetryDelay 1 10000 600000 2 r < 13000) ∧
    calculateRetryDelay 5 10000 600000 2 r ≤ 780000 := by
  refine ⟨rfl, ⟨?_, ?_⟩, ?_⟩
  · unfold calculateRetryDelay
    have hd : min ((10000 : ℚ) * 2 ^ (1 - 1)) 600000 = 10000 := by norm_num
    rw [hd, Int.le_floor]
    push_cast
    nlinarith
  · unfold calculateRetryDelay
    have hd : min ((10000 : ℚ) * 2 ^ (1 - 1)) 600000 = 10000 := by norm_num
    rw [hd, Int.floor_lt]
    push_cast
    nlinarith
  · unfold calculateRetryDelay
    have hd : min ((10000 : ℚ) * 2 ^ (5 - 1)) 600000 = 160000 := by norm_num
    rw [hd]
    have hx : (160000 : ℚ) + r * (3 / 10) * 160000 ≤ 780000 := by nlinarith
    calc ⌊(160000 : ℚ) + r * (3 / 10) * 160000⌋
        ≤ ⌊(780000 : ℚ)⌋ := Int.floor_le_floor hx
      _ = 780000 := by norm_num

/-- Witness for C4 at `n = 1`, `r = 1/2`. -/
theorem calculateRetryDelay_spec_witness :
    (10000 : ℤ) ≤ calculateRetryDelay 1 10000 600000 2 (1 / 2) ∧
      calculateRetryDelay 1 10000 600000 2 (1 / 2) < 13000 :=
  (calculateRetryDelay_spec 1 10000 600000 2 (1 / 2)
    (by norm_num) (by norm_num) (by norm_num)).2.1

/-- C8: for every message-array payload with more than 100 messages,
`calculateTimeout` returns exactly the 120000 ms ceiling, regardless of
message count or character length. -/
theorem calculateTimeout_saturates (l : List MessageObject) (h : 100 < l.length) :
    calculateTimeout (.msgs l) = 120000 := by
  simp only [calculateTimeout, getMessageCount, getContentLength]
  rw [if_neg (by omega), if_neg (by omega), if_neg (by omega), if_neg (by omega)]
  exact Nat.min_eq_right (Nat.le_add_right _ _)

/-- Witness for C8 at 101 empty messages. -/
theorem calculateTimeout_saturates_witness :
    100 < (List.replicate 101 ({} : MessageObject)).length ∧
      calculateTimeout (.msgs (List.replicate 101 ({} : MessageObject))) = 120000 :=
  ⟨by simp, calculateTimeout_saturates _ (by simp)⟩

/-- C9 counterexample: at content length 0 the processing delay is 0, which is
not a positive multiple of the 60000 ms base unit. -/
theorem claim9_counterexample :
    calculateProcessingDelay 0 = 0 ∧ ¬ 0 < calculateProcessingDelay 0 := by
  decide

/-- C9 (amended): `calculateProcessingDelay` is monotonically non-decreasing
and always a multiple of the 60000 ms base unit; it is positive whenever the
content length is positive (at length 0 it is 0). -/
theorem calculateProcessingDelay_spec (a b : Nat) (hab : a ≤ b) :
    calculateProcessingDelay a ≤ calculateProcessingDelay b ∧
    60000 ∣ calculateProcessingDelay a ∧
    (0 < a → 0 < calculateProcessingDelay a) := by
  refine ⟨?_, ?_, ?_⟩
  · exact Nat.mul_le_mul_right 60000 (Nat.div_le_div_right (by omega))
  · exact dvd_mul_left 60000 _
  · intro ha
    have h1 : 1 ≤ (a + 14999) / 15000 := (Nat.one_le_div_iff (by norm_num)).mpr (by omega)
    calc 0 < 1 * 60000 := by norm_num
      _ ≤ (a + 14999) / 15000 * 60000 := Nat.mul_le_mul_right 60000 h1

/-- Witness for C9 (amended) at lengths 1 and 2. -/
theorem calculateProcessingDelay_spec_witness :
    calculateProcessingDelay 1 ≤ calculateProcessingDelay 2 ∧
      60000 ∣ calculateProcessingDelay 1 ∧ 0 < calculateProcessingDelay 1 :=
  ⟨(calculateProcessingDelay_spec 1 2 (by decide)).1,
    (calculateProcessingDelay_spec 1 2 (by decide)).2.1,
    (calculateProcessingDelay_spec 1 2 (by decide)).2.2 (by decide)⟩

/-- C2: `compress` raises the too-long validation failure iff the effective
content length exceeds 800,000 characters, and in that case the transport is
invoked zero times (no request is ever sent). -/
theorem compress_validation (cfg : RetryConfig) (request : CompressRequest)
    (script : Nat → TransportOutcome) (jitters : Nat → ℚ) :
    (isTooLongFailure (compress cfg request script jitters).result = true ↔
      800000 < getContentLength request.content) ∧
    (800000 < getContentLength request.content →
      (compress cfg request script jitters).sentRequests = []) := by
  by_cases hlen : 800000 < getContentLength request.content
  · constructor
    · simp [compress, hlen, isTooLongFailure]
    · intro _
      simp [compress, hlen]
  · simp only [compress, if_neg hlen]
    refine ⟨?_, fun h => absurd h hlen⟩
    rw [executeWithRetry_result_not_validation (cfg.maxRetries - 1) cfg _ _ script jitters 1 rfl]
    simp [hlen]

/-- Witness for C2 at a single-string payload of 800,001 characters. -/
theorem compress_validation_witness :
    isTooLongFailure (compress cfg2
        { content := .str (String.mk (List.replicate 800001 'a')) }
        (constScript (.ok doneResp)) zeroJitter).result = true ∧
    (compress cfg2 { content := .str (String.mk (List.replicate 800001 'a')) }
        (constScript (.ok doneResp)) zeroJitter).sentRequests = [] := by
  have hlen :
      800000 < getContentLength (Content.str (String.mk (List.replicate 800001 'a'))) := by
    have h : getContentLength (Content.str (String.mk (List.replicate 800001 'a'))) = 800001 := by
      show (List.replicate 800001 'a').length = 800001
      exact List.length_replicate _ _
    omega
  exact ⟨(compress_validation cfg2 _ (constScript (.ok doneResp)) zeroJitter).1.mpr hlen,
    (compress_validation cfg2 _ (constScript (.ok doneResp)) zeroJitter).2 hlen⟩

/-- Scan rule of the source identity derivation: `extractUserIdFromContent`
returns exactly the first non-empty `user_id` attribute found by scanning the
messages in order (here phrased, following the spec, as the head of the
in-order list of non-empty identity attributes). -/
theorem extractUserId_eq_scan :
    ∀ l : List MessageObject,
      extractUserIdFromContent (.msgs l) =
        (l.filterMap (fun m => m.user_id.bind
          (fun s => if s.isEmpty then none else some s))).head? := by
  intro l
  induction l with
  | nil => rfl
  | cons m l ih =>
      simp only [extractUserIdFromContent] at ih ⊢
      cases hu : m.user_id with
      | none =>
          rw [List.find?_cons_of_neg _ (by simp [optStrTruthy, hu]),
            List.filterMap_cons_none (by simp [hu])]
          exact ih
      | some s =>
          cases hs : s.isEmpty with
          | true =>
              rw [List.find?_cons_of_neg _ (by simp [optStrTruthy, hu, hs]),
                List.filterMap_cons_none (by simp [hu, hs])]
              exact ih
          | false =>
              rw [List.find?_cons_of_pos _ (by simp [optStrTruthy, hu, hs]),
                List.filterMap_cons_some (show _ = some s by simp [hu, hs])]
              simp [hu]

/-- A derived identity is never the empty string (the scan only accepts
truthy `user_id` attributes). -/
theorem extractUserId_nonempty (l : List MessageObject) (uid : String)
    (h : extractUserIdFromContent (.msgs l) = some uid) : uid.isEmpty = false := by
  simp only [extractUserIdFromContent, Option.bind_eq_some] at h
  obtain ⟨m, hfind, huid⟩ := h
  have hp := List.find?_some hfind
  rw [huid] at hp
  simpa [optStrTruthy] using hp

/-- C7: for every message-sequence payload whose envelope carries no explicit
identity, the derived identity is the first non-empty `user_id` attribute
found by scanning the messages in order, and whenever such an identity exists
(and the payload passes validation) it is attached to the request before the
first send and carried verbatim by every physical send of the logical request
— first attempt and all retries, under any configuration and any transport
script. -/
theorem compress_derives_user_id (cfg : RetryConfig) (request : CompressRequest)
    (l : List MessageObject) (script : Nat → TransportOutcome) (jitters : Nat → ℚ)
    (uid : String) (hcontent : request.content = .msgs l)
    (hnoid : optStrTruthy request.user_id = false)
    (hderived : extractUserIdFromContent (.msgs l) = some uid)
    (hlen : getContentLength (.msgs l) ≤ 800000) :
    (∀ l' : List MessageObject,
      extractUserIdFromContent (.msgs l') =
        (l'.filterMap (fun m => m.user_id.bind
          (fun s => if s.isEmpty then none else some s))).head?) ∧
    1 ≤ (compress cfg request script jitters).sentRequests.length ∧
    ∀ r ∈ (compress cfg request script jitters).sentRequests, r.user_id = some uid := by
  have hne : uid.isEmpty = false := extractUserId_nonempty l uid hderived
  have hrun : compress cfg request script jitters =
      executeWithRetry cfg { request with user_id := some uid }
        (calculateTimeout (Content.msgs l)) script jitters 1 := by
    simp only [compress, hcontent, hnoid, Bool.not_false, hderived, hne, if_true]
    rw [if_neg (by omega)]
  obtain ⟨n, hn⟩ := executeWithRetry_sends_replicate (cfg.maxRetries - 1) cfg
    { request with user_id := some uid } (calculateTimeout (Content.msgs l))
    script jitters 1 rfl
  refine ⟨extractUserId_eq_scan, ?_, ?_⟩
  · rw [hrun, hn]
    simp
  · intro r hr
    rw [hrun, hn] at hr
    rw [List.eq_of_mem_replicate hr]

/-- Witness for C7 at the claim's example payload `[{message:"hi"},
{message:"hey", user_id:"u1"}]` and a one-shot successful transport. -/
theorem compress_derives_user_id_witness :
    1 ≤ (compress cfg2
        { content := .msgs [{ message := some "hi" },
            { message := some "hey", user_id := some "u1" }] }
        (constScript (.ok doneResp)) zeroJitter).sentRequests.length ∧
    (compress cfg2
        { content := .msgs [{ message := some "hi" },
            { message := some "hey", user_id := some "u1" }] }
        (constScript (.ok doneResp)) zeroJitter).sentRequests.all
      (fun r => r.user_id == some "u1") = true := by
  have h := compress_derives_user_id cfg2
    { content := .msgs [{ message := some "hi" },
        { message := some "hey", user_id := some "u1" }] }
    [{ message := some "hi" }, { message := some "hey", user_id := some "u1" }]
    (constScript (.ok doneResp)) zeroJitter "u1" rfl rfl (by decide) (by decide)
  refine ⟨h.2.1, ?_⟩
  rw [List.all_eq_true]
  intro r hr
  have hu := h.2.2 r hr
  simp [hu]

/-- C1 counterexample: with a transport that times out client-side on the
first attempt and succeeds on the second, the client retries (2 physical
sends) and returns the success — it does not return a terminal Timeout
failure, contradicting the claim that a timed-out attempt is terminal and
never retried at this layer. -/
theorem claim1_counterexample :
    (executeWithRetry cfg10 sampleReq 10000 timeoutThenOk zeroJitter 1).result =
      .success doneResp ∧
    (executeWithRetry cfg10 sampleReq 10000 timeoutThenOk zeroJitter 1).sentRequests.length
      = 2 := by
  have hre : isRetryableError timeoutErr = true := by decide
  have hd : isStillProcessing doneResp = false := by decide
  have h2 : executeWithRetry cfg10 sampleReq 10000 timeoutThenOk zeroJitter 2 =
      { result := .success doneResp, sentRequests := [sampleReq], waits := [] } := by
    rw [executeWithRetry]
    simp [timeoutThenOk, hd]
  rw [executeWithRetry]
  have hlt : 1 < cfg10.maxRetries := by decide
  simp [timeoutThenOk, hre, hlt, h2]

/-- C1 (amended): a client-side timeout (no response, code `ECONNABORTED`) is
classified retryable, and is retried like a connection failure; when every
attempt times out, the run makes exactly `maxRetries` physical attempts and
then returns the terminal Timeout failure whose message tells the caller to
consider asynchronous delivery (`webhook_url`). -/
theorem timeout_retried_then_terminal (cfg : RetryConfig) (request : CompressRequest)
    (timeout : Nat) (jitters : Nat → ℚ) (e : AxiosErr)
    (hresp : e.response = none) (hcode : e.code = some "ECONNABORTED")
    (hmr : 1 ≤ cfg.maxRetries) :
    isRetryableError e = true ∧
    (executeWithRetry cfg request timeout (constScript (.err e)) jitters 1).result =
      .failure (.requestTimeout (timeout / 1000)) ∧
    (executeWithRetry cfg request timeout
        (constScript (.err e)) jitters 1).sentRequests.length = cfg.maxRetries ∧
    stringIncludes (CompressFailure.errorMessage (.requestTimeout (timeout / 1000)))
      "webhook_url" = true := by
  have hre : isRetryableError e = true := by simp [isRetryableError, hresp]
  have hclass : classifyTerminalError e timeout = .requestTimeout (timeout / 1000) := by
    simp [classifyTerminalError, hresp, hcode]
  have h := executeWithRetry_constRetryableErr (cfg.maxRetries - 1) cfg request timeout
    jitters e hre 1 (by omega)
  refine ⟨hre, ?_, ?_, ?_⟩
  · rw [h.1, hclass]
  · rw [h.2]
    omega
  · unfold CompressFailure.errorMessage
    apply stringIncludes_append_of_right
    decide

/-- Witness for C1 (amended): budget 2, every attempt a client-side timeout. -/
theorem timeout_retried_then_terminal_witness :
    isRetryableError timeoutErr = true ∧
    (executeWithRetry cfg2 sampleReq 10000 (constScript (.err timeoutErr)) zeroJitter 1).result =
      .failure (.requestTimeout 10) ∧
    (executeWithRetry cfg2 sampleReq 10000
        (constScript (.err timeoutErr)) zeroJitter 1).sentRequests.length = 2 ∧
    stringIncludes (CompressFailure.errorMessage (.requestTimeout 10)) "webhook_url" = true :=
  timeout_retried_then_terminal cfg2 sampleReq 10000 zeroJitter timeoutErr rfl rfl (by decide)

/-- C3 counterexample: with `maxRetries = 2` and a transport that always
answers still-processing, the run makes 2 physical sends with 1 poll wait
(i.e. `maxRetries − 1` retries), not the `maxRetries` retries the claim
states (which would require 3 sends and 2 waits). -/
theorem claim3_counterexample :
    (executeWithRetry cfg2 sampleReq 10000 (constScript (.ok stillProcessingResp))
        zeroJitter 1).sentRequests.length = 2 ∧
    (executeWithRetry cfg2 sampleReq 10000 (constScript (.ok stillProcessingResp))
        zeroJitter 1).waits.length = 1 ∧
    (executeWithRetry cfg2 sampleReq 10000 (constScript (.ok stillProcessingResp))
        zeroJitter 1).result = .failure (.stillProcessingExhausted 2) := by
  have hsp : isStillProcessing stillProcessingResp = true := by decide
  have h := executeWithRetry_constStillProcessing 1 cfg2 sampleReq 10000 zeroJitter
    stillProcessingResp hsp 1 (by decide)
  rw [h]
  simp [cfg2]

/-- C3 (amended): with a transport that always answers still-processing, the
orchestrator makes exactly `maxRetries` physical attempts — that is,
`maxRetries − 1` resends, each preceded by the size-proportional processing
delay — and then returns the still-processing-exhausted failure whose message
recommends asynchronous delivery (`webhook_url`). -/
theorem stillProcessing_exhaustion (cfg : RetryConfig) (request : CompressRequest)
    (timeout : Nat) (jitters : Nat → ℚ) (resp : CompressResponse)
    (hsp : isStillProcessing resp = true) (hmr : 1 ≤ cfg.maxRetries) :
    executeWithRetry cfg request timeout (constScript (.ok resp)) jitters 1 =
      { result := .failure (.stillProcessingExhausted cfg.maxRetries)
        sentRequests := List.replicate cfg.maxRetries request
        waits := List.replicate (cfg.maxRetries - 1)
          ((calculateProcessingDelay (getContentLength request.content) : ℤ)) } ∧
    stringIncludes
      (CompressFailure.errorMessage (.stillProcessingExhausted cfg.maxRetries))
      "webhook_url" = true := by
  constructor
  · have h := executeWithRetry_constStillProcessing (cfg.maxRetries - 1) cfg request timeout
      jitters resp hsp 1 (by omega)
    have hk : cfg.maxRetries - 1 + 1 = cfg.maxRetries := by omega
    rw [h, hk]
  · unfold CompressFailure.errorMessage
    apply stringIncludes_append_of_right
    decide

/-- Witness for C3 (amended): budget 2, always still-processing. -/
theorem stillProcessing_exhaustion_witness :
    executeWithRetry cfg2 sampleReq 10000 (constScript (.ok stillProcessingResp)) zeroJitter 1 =
      { result := .failure (.stillProcessingExhausted 2)
        sentRequests := List.replicate 2 sampleReq
        waits := List.replicate 1
          ((calculateProcessingDelay (getContentLength sampleReq.content) : ℤ)) } ∧
    stringIncludes (CompressFailure.errorMessage (.stillProcessingExhausted 2))
      "webhook_url" = true :=
  stillProcessing_exhaustion cfg2 sampleReq 10000 zeroJitter stillProcessingResp
    (by decide) (by decide)

/-- C5 counterexample: with `maxRetries = 2`, one still-processing poll
followed by a 503 ends the run as a terminal ServiceUnavailable failure after
2 sends — the transient-error kind had used none of its supposed own budget,
so the processing retry did reduce the budget remaining for transient
retries, contradicting the claimed independence of the two counters. -/
theorem claim5_counterexample :
    (executeWithRetry cfg2 sampleReq 10000 spThenOverload zeroJitter 1).result =
      .failure .serviceUnavailable ∧
    (executeWithRetry cfg2 sampleReq 10000 spThenOverload zeroJitter 1).sentRequests.length
      = 2 := by
  have hsp : isStillProcessing stillProcessingResp = true := by decide
  have hre : isRetryableError overloadErr = true := by decide
  have hcl : classifyTerminalError overloadErr 10000 = .serviceUnavailable := by decide
  have h2 : executeWithRetry cfg2 sampleReq 10000 spThenOverload zeroJitter 2 =
      { result := .failure .serviceUnavailable, sentRequests := [sampleReq], waits := [] } := by
    rw [executeWithRetry]
    simp [spThenOverload, hre, hcl, cfg2]
  rw [executeWithRetry]
  have hlt : 1 < cfg2.maxRetries := by decide
  simp [spThenOverload, hsp, hlt, h2]

/-- C5 (amended): the two retry kinds share one attempt counter: however
still-processing responses and transient errors interleave, the total number
of physical attempts of a logical request never exceeds
`max maxRetries 1`. -/
theorem executeWithRetry_shared_budget (cfg : RetryConfig) (request : CompressRequest)
    (timeout : Nat) (script : Nat → TransportOutcome) (jitters : Nat → ℚ) :
    (executeWithRetry cfg request timeout script jitters 1).sentRequests.length ≤
      max cfg.maxRetries 1 := by
  have h := executeWithRetry_sends_bound (cfg.maxRetries - 1) cfg request timeout
    script jitters 1 rfl
  omega

/-- C6 counterexample: an envelope carrying `webhook_url`, answered by an
acknowledgment whose message mentions "being processed", is polled like a
still-processing response (a second send after a wait) instead of being
returned immediately — the classification never consults `webhook_url`. -/
theorem claim6_counterexample :
    webhookReq.webhook_url = some "https://example.com/hook" ∧
    (executeWithRetry cfg10 webhookReq 10000 ackThenOk zeroJitter 1).sentRequests.length = 2 ∧
    (executeWithRetry cfg10 webhookReq 10000 ackThenOk zeroJitter 1).waits.length = 1 ∧
    (executeWithRetry cfg10 webhookReq 10000 ackThenOk zeroJitter 1).result =
      .success doneResp := by
  refine ⟨rfl, ?_⟩
  have hsp : isStillProcessing webhookAckResp = true := by decide
  have hd : isStillProcessing doneResp = false := by decide
  have h2 : executeWithRetry cfg10 webhookReq 10000 ackThenOk zeroJitter 2 =
      { result := .success doneResp, sentRequests := [webhookReq], waits := [] } := by
    rw [executeWithRetry]
    simp [ackThenOk, hd]
  rw [executeWithRetry]
  have hlt : 1 < cfg10.maxRetries := by decide
  simp [ackThenOk, hsp, hlt, h2]

/-- C6 (amended): a first response is returned immediately — no poll, no
retry — exactly when it is not classified still-processing (wire status
`"success"` with a message containing the case-insensitive phrase "being
processed"); the envelope's `webhook_url` is not consulted, so an
acknowledgment is terminal precisely when its body escapes that
classification. -/
theorem nonProcessing_response_terminal (cfg : RetryConfig) (request : CompressRequest)
    (timeout : Nat) (script : Nat → TransportOutcome) (jitters : Nat → ℚ)
    (resp : CompressResponse) (h1 : script 1 = .ok resp)
    (h2 : isStillProcessing resp = false) :
    executeWithRetry cfg request timeout script jitters 1 =
      { result := .success resp, sentRequests := [request], waits := [] } := by
  rw [executeWithRetry, h1]
  simp [h2]

/-- Witness for C6 (amended): a plain success body on an envelope with a
webhook target is returned immediately. -/
theorem nonProcessing_response_terminal_witness :
    executeWithRetry cfg2 webhookReq 10000 (constScript (.ok doneResp)) zeroJitter 1 =
      { result := .success doneResp, sentRequests := [webhookReq], waits := [] } :=
  nonProcessing_response_terminal cfg2 webhookReq 10000 (constScript (.ok doneResp))
    zeroJitter doneResp rfl (by decide)

/-- C10: a first response with HTTP status 500 fails on that same attempt
with the Server Error failure carrying the server-supplied detail text — no
wait, no retry — and the retryable classification holds exactly for
no-response failures, 503, and 429. -/
theorem serverError_terminal (cfg : RetryConfig) (request : CompressRequest)
    (timeout : Nat) (script : Nat → TransportOutcome) (jitters : Nat → ℚ)
    (detail : String) (e : AxiosErr) (h1 : script 1 = .err e)
    (h2 : e.response = some { status := 500, detail := detail }) :
    executeWithRetry cfg request timeout script jitters 1 =
      { result := .failure (.serverError detail), sentRequests := [request], waits := [] } ∧
    (∀ e2 : AxiosErr, isRetryableError e2 = true ↔
      (e2.response = none ∨
        ∃ r, e2.response = some r ∧ (r.status = 503 ∨ r.status = 429))) := by
  constructor
  · have hre : isRetryableError e = false := by simp [isRetryableError, h2]
    have hcl : classifyTerminalError e timeout = .serverError detail := by
      simp [classifyTerminalError, h2]
    rw [executeWithRetry, h1]
    simp [hre, hcl]
  · intro e2
    cases he : e2.response with
    | none => simp [isRetryableError, he]
    | some r => simp [isRetryableError, he]

/-- Witness for C10: a concrete 500 with detail "boom" on attempt 1. -/
theorem serverError_terminal_witness :
    executeWithRetry cfg2 sampleReq 10000 (constScript (.err serverErr)) zeroJitter 1 =
      { result := .failure (.serverError "boom"), sentRequests := [sampleReq], waits := [] } :=
  (serverError_terminal cfg2 sampleReq 10000 (constScript (.err serverErr)) zeroJitter
    "boom" serverErr rfl rfl).1

end MieltoCompress
